import Mathlib

/-!
Verification development for the LLGL OpenGL render-target construction and
multisample-resolve core (sources/Renderer/OpenGL/Texture/GLRenderTarget.h and
sources/Renderer/OpenGL/GLRenderSystem.h).

The repository excerpt ships only the class declarations (the headers); the
method bodies of GLRenderTarget and of the render-system facade live in
translation units that are not part of the excerpt.  Every definition whose
doc comment starts with `Modelled from the spec:` therefore embeds the missing
implementation faithfully from the specification's words; the remaining
definitions mirror data that the headers themselves declare (field layout,
field defaults, accessor constness).
-/

namespace LLGL

/-- Texture types of the abstraction layer (LLGL TextureType). -/
inductive TextureType where
  | texture1D
  | texture2D
  | texture3D
  | textureCube
  | texture1DArray
  | texture2DArray
  | textureCubeArray
  | texture2DMS
  | texture2DMSArray
deriving DecidableEq, Repr

/-- Pixel formats, partitioned into color, depth-only, stencil-only and
combined depth-stencil formats. -/
inductive Format where
  | rgba8
  | rgba16f
  | rgb10a2
  | d16
  | d32f
  | s8
  | d24s8
  | d32fs8
deriving DecidableEq, Repr

/-- Depth-only formats. -/
def Format.isDepthOnly : Format → Bool
  | .d16 => true
  | .d32f => true
  | _ => false

/-- Stencil-only formats. -/
def Format.isStencilOnly : Format → Bool
  | .s8 => true
  | _ => false

/-- Combined depth-stencil formats. -/
def Format.isCombined : Format → Bool
  | .d24s8 => true
  | .d32fs8 => true
  | _ => false

/-- Any depth or stencil format. -/
def Format.isDepthStencil (f : Format) : Bool :=
  f.isDepthOnly || f.isStencilOnly || f.isCombined

/-- Color formats are exactly the non-depth-stencil formats. -/
def Format.isColor (f : Format) : Bool :=
  !f.isDepthStencil

/-- A texture object, with its declared type, format and resolution
(the parts of GLTexture relevant to attachment building). -/
structure GLTexture where
  type : TextureType
  format : Format
  width : Nat
  height : Nat
deriving DecidableEq, Repr

/-- One attachment description: either a texture reference with subresource
selection, or (texture = none) a request for an implicit renderbuffer. -/
structure AttachmentDescriptor where
  texture : Option GLTexture
  format : Format
  mipLevel : Nat
  arrayLayer : Nat
deriving DecidableEq, Repr

/-- Role tag of an attachment inside a render-target descriptor:
color slot N, the (at most one) depth-stencil slot, or resolve target for
color slot N. -/
inductive AttachmentRole where
  | color (slot : Nat)
  | depthStencil
  | resolve (slot : Nat)
deriving DecidableEq, Repr

/-- An attachment of a render-target descriptor: a role together with the
attachment description. -/
structure RTAttachment where
  role : AttachmentRole
  attachment : AttachmentDescriptor
deriving DecidableEq, Repr

/-- The backend-neutral render-target descriptor: resolution, sample count and
the ordered sequence of attachment declarations. -/
structure RenderTargetDescriptor where
  width : Nat
  height : Nat
  samples : Nat
  attachments : List RTAttachment
deriving DecidableEq, Repr

/-- GL_COLOR_ATTACHMENT0. -/
def GL_COLOR_ATTACHMENT0 : Nat := 0x8CE0

/-- GL_DEPTH_ATTACHMENT. -/
def GL_DEPTH_ATTACHMENT : Nat := 0x8D00

/-- GL_STENCIL_ATTACHMENT. -/
def GL_STENCIL_ATTACHMENT : Nat := 0x8D20

/-- GL_DEPTH_STENCIL_ATTACHMENT. -/
def GL_DEPTH_STENCIL_ATTACHMENT : Nat := 0x821A

/-- Maximum number of color attachments of a render target
(LLGL_MAX_NUM_COLOR_ATTACHMENTS, the capability limit). -/
def LLGL_MAX_NUM_COLOR_ATTACHMENTS : Nat := 8

/-- Modelled from the spec: binding-identifier allocation for a color slot of
the primary framebuffer is pure arithmetic, base color binding plus slot index
(GLRenderTarget::AllocColorAttachmentBinding, body not in the excerpt). -/
def AllocColorAttachmentBinding (colorTarget : Nat) : Nat :=
  GL_COLOR_ATTACHMENT0 + colorTarget

/-- Modelled from the spec: binding allocation for a resolve slot reuses the
same arithmetic against the resolve framebuffer's own binding space
(GLRenderTarget::AllocResolveAttachmentBinding, body not in the excerpt). -/
def AllocResolveAttachmentBinding (colorTarget : Nat) : Nat :=
  GL_COLOR_ATTACHMENT0 + colorTarget

/-- Modelled from the spec: the depth-stencil binding is chosen from the
attachment format, depth-only, stencil-only or combined
(GLRenderTarget::AllocDepthStencilAttachmentBinding, body not in the
excerpt).  A non-depth-stencil format yields no binding (0). -/
def AllocDepthStencilAttachmentBinding (format : Format) : Nat :=
  if format.isCombined then GL_DEPTH_STENCIL_ATTACHMENT
  else if format.isDepthOnly then GL_DEPTH_ATTACHMENT
  else if format.isStencilOnly then GL_STENCIL_ATTACHMENT
  else 0

/-- Storage backing one framebuffer attachment: a texture or a renderbuffer. -/
inductive AttachmentStorage where
  | texture (tex : GLTexture)
  | renderbuffer (format : Format)
deriving DecidableEq, Repr

/-- One bound attachment slot of a framebuffer: its binding identifier, its
storage, its sample count and an abstract token for its pixel content. -/
structure FramebufferAttachment where
  binding : Nat
  storage : AttachmentStorage
  samples : Nat
  content : Nat
deriving DecidableEq, Repr

/-- A framebuffer: the ordered set of bound attachment slots (GLFramebuffer). -/
structure GLFramebuffer where
  attachments : List FramebufferAttachment
deriving DecidableEq, Repr

/-- Binds one further attachment in a framebuffer. -/
def GLFramebuffer.push (fb : GLFramebuffer) (att : FramebufferAttachment) :
    GLFramebuffer :=
  { attachments := fb.attachments ++ [att] }

/-- Content of the attachment bound at the given binding (0 when unbound). -/
def GLFramebuffer.contentAt (fb : GLFramebuffer) (binding : Nat) : Nat :=
  match fb.attachments.find? (fun att => att.binding == binding) with
  | some att => att.content
  | none => 0

/-- An implicit renderbuffer owned by a render target (GLRenderbuffer). -/
structure GLRenderbuffer where
  internalFormat : Format
  width : Nat
  height : Nat
  samples : Nat
deriving DecidableEq, Repr

/-- The state of a GLRenderTarget, mirroring the private fields declared in
GLRenderTarget.h: resolution_, framebuffer_ (primary FBO), framebufferResolve_
(secondary FBO to resolve into), renderbuffers_, drawBuffers_,
drawBuffersResolve_, samples_ (default 1) and depthStencilBinding_
(default 0, meaning none). -/
structure GLRenderTarget where
  resolution : Nat × Nat
  framebuffer : GLFramebuffer
  framebufferResolve : GLFramebuffer
  renderbuffers : List GLRenderbuffer
  drawBuffers : List Nat
  drawBuffersResolve : List Nat
  samples : Nat := 1
  depthStencilBinding : Nat := 0
deriving DecidableEq, Repr

/-- Returns the primary FBO (GLRenderTarget::GetFramebuffer, a const accessor
declared inline in the header). -/
def GetFramebuffer (rt : GLRenderTarget) : GLFramebuffer :=
  rt.framebuffer

/-- The error kinds of construction and resolve. -/
inductive RenderTargetError where
  | invalidAttachmentType
  | renderTargetIncomplete
  | indexOutOfRange
  | resourceExhausted
deriving DecidableEq, Repr

/-- Modelled from the spec: texture-type legality for a binding role.  A
cube-map face attached as a single 2D color target is legal; a 1D texture
attached as depth-stencil is not (GLRenderSystem::ValidateGLTextureType and
the validation inside GLRenderTarget::BuildAttachmentWithTexture, bodies not
in the excerpt). -/
def TextureTypeCompatible (role : AttachmentRole) (type : TextureType) : Bool :=
  match role with
  | .depthStencil =>
    match type with
    | .texture1D => false
    | .texture1DArray => false
    | _ => true
  | _ => true

/-- Does the descriptor declare an explicit resolve-role attachment for the
given color slot? -/
def HasExplicitResolve (desc : RenderTargetDescriptor) (slot : Nat) : Bool :=
  desc.attachments.any (fun a =>
    match a.role with
    | .resolve s => s == slot
    | _ => false)

/-- Modelled from the spec: GLRenderTarget::BuildColorAttachment (body not in
the excerpt).  Allocates the color binding for the slot, appends it to the
primary draw-buffers list, and binds the storage in the primary framebuffer.
When the sample count exceeds 1 and the slot has no explicit resolve-role
attachment, a multisampled renderbuffer is substituted as the primary storage
and the resolve framebuffer gains a matching plain attachment as the blit
destination. -/
def BuildColorAttachment (desc : RenderTargetDescriptor) (rt : GLRenderTarget)
    (attachmentDesc : AttachmentDescriptor) (colorTarget : Nat) :
    Except RenderTargetError GLRenderTarget :=
  let binding := AllocColorAttachmentBinding colorTarget
  if 1 < rt.samples && !(HasExplicitResolve desc colorTarget) then
    match attachmentDesc.texture with
    | some tex =>
      if TextureTypeCompatible (.color colorTarget) tex.type then
        Except.ok { rt with
          framebuffer := rt.framebuffer.push
            { binding := binding, storage := .renderbuffer attachmentDesc.format,
              samples := rt.samples, content := 0 },
          framebufferResolve := rt.framebufferResolve.push
            { binding := binding, storage := .texture tex,
              samples := 1, content := 0 },
          renderbuffers := rt.renderbuffers ++
            [{ internalFormat := attachmentDesc.format, width := desc.width,
               height := desc.height, samples := rt.samples }],
          drawBuffers := rt.drawBuffers ++ [binding],
          drawBuffersResolve := rt.drawBuffersResolve ++ [binding] }
      else
        Except.error .invalidAttachmentType
    | none =>
      Except.ok { rt with
        framebuffer := rt.framebuffer.push
          { binding := binding, storage := .renderbuffer attachmentDesc.format,
            samples := rt.samples, content := 0 },
        framebufferResolve := rt.framebufferResolve.push
          { binding := binding, storage := .renderbuffer attachmentDesc.format,
            samples := 1, content := 0 },
        renderbuffers := rt.renderbuffers ++
          [{ internalFormat := attachmentDesc.format, width := desc.width,
             height := desc.height, samples := rt.samples },
           { internalFormat := attachmentDesc.format, width := desc.width,
             height := desc.height, samples := 1 }],
        drawBuffers := rt.drawBuffers ++ [binding],
        drawBuffersResolve := rt.drawBuffersResolve ++ [binding] }
  else
    match attachmentDesc.texture with
    | some tex =>
      if TextureTypeCompatible (.color colorTarget) tex.type then
        Except.ok { rt with
          framebuffer := rt.framebuffer.push
            { binding := binding, storage := .texture tex,
              samples := rt.samples, content := 0 },
          drawBuffers := rt.drawBuffers ++ [binding] }
      else
        Except.error .invalidAttachmentType
    | none =>
      Except.ok { rt with
        framebuffer := rt.framebuffer.push
          { binding := binding, storage := .renderbuffer attachmentDesc.format,
            samples := rt.samples, content := 0 },
        renderbuffers := rt.renderbuffers ++
          [{ internalFormat := attachmentDesc.format, width := desc.width,
             height := desc.height, samples := rt.samples }],
        drawBuffers := rt.drawBuffers ++ [binding] }

/-- Modelled from the spec: GLRenderTarget::BuildResolveAttachment (body not
in the excerpt).  Binds the storage in the secondary (resolve) framebuffer as
a plain, non-multisampled attachment and appends the binding to the resolve
draw-buffers list. -/
def BuildResolveAttachment (desc : RenderTargetDescriptor)
    (rt : GLRenderTarget) (attachmentDesc : AttachmentDescriptor)
    (colorTarget : Nat) : Except RenderTargetError GLRenderTarget :=
  let binding := AllocResolveAttachmentBinding colorTarget
  match attachmentDesc.texture with
  | some tex =>
    if TextureTypeCompatible (.resolve colorTarget) tex.type then
      Except.ok { rt with
        framebufferResolve := rt.framebufferResolve.push
          { binding := binding, storage := .texture tex,
            samples := 1, content := 0 },
        drawBuffersResolve := rt.drawBuffersResolve ++ [binding] }
    else
      Except.error .invalidAttachmentType
  | none =>
    Except.ok { rt with
      framebufferResolve := rt.framebufferResolve.push
        { binding := binding, storage := .renderbuffer attachmentDesc.format,
          samples := 1, content := 0 },
      renderbuffers := rt.renderbuffers ++
        [{ internalFormat := attachmentDesc.format, width := desc.width,
           height := desc.height, samples := 1 }],
      drawBuffersResolve := rt.drawBuffersResolve ++ [binding] }

/-- Modelled from the spec: GLRenderTarget::BuildDepthStencilAttachment (body
not in the excerpt).  Allocates the depth-stencil binding from the format,
binds the storage in the primary framebuffer and records the binding
separately; the binding never enters a draw-buffers list. -/
def BuildDepthStencilAttachment (desc : RenderTargetDescriptor)
    (rt : GLRenderTarget) (attachmentDesc : AttachmentDescriptor) :
    Except RenderTargetError GLRenderTarget :=
  let binding := AllocDepthStencilAttachmentBinding attachmentDesc.format
  match attachmentDesc.texture with
  | some tex =>
    if TextureTypeCompatible .depthStencil tex.type then
      Except.ok { rt with
        framebuffer := rt.framebuffer.push
          { binding := binding, storage := .texture tex,
            samples := rt.samples, content := 0 },
        depthStencilBinding := binding }
    else
      Except.error .invalidAttachmentType
  | none =>
    Except.ok { rt with
      framebuffer := rt.framebuffer.push
        { binding := binding, storage := .renderbuffer attachmentDesc.format,
          samples := rt.samples, content := 0 },
      renderbuffers := rt.renderbuffers ++
        [{ internalFormat := attachmentDesc.format, width := desc.width,
           height := desc.height, samples := rt.samples }],
      depthStencilBinding := binding }

/-- Dispatches one attachment declaration to the role-specific builder. -/
def BuildAttachment (desc : RenderTargetDescriptor) (rt : GLRenderTarget)
    (a : RTAttachment) : Except RenderTargetError GLRenderTarget :=
  match a.role with
  | .color slot => BuildColorAttachment desc rt a.attachment slot
  | .resolve slot => BuildResolveAttachment desc rt a.attachment slot
  | .depthStencil => BuildDepthStencilAttachment desc rt a.attachment

/-- Iterates the attachment declarations in declared order, threading the
render-target state; stops at the first error. -/
def BuildAttachments (desc : RenderTargetDescriptor) :
    List RTAttachment → GLRenderTarget → Except RenderTargetError GLRenderTarget
  | [], rt => Except.ok rt
  | a :: rest, rt =>
    match BuildAttachment desc rt a with
    | .error e => Except.error e
    | .ok rt' => BuildAttachments desc rest rt'

/-- The render-target state right after field initialization: empty
framebuffers, no renderbuffers, empty draw-buffer lists, depth-stencil
binding 0; the sample count is taken from the descriptor, defaulting to 1. -/
def InitRenderTarget (desc : RenderTargetDescriptor) : GLRenderTarget :=
  { resolution := (desc.width, desc.height)
    framebuffer := { attachments := [] }
    framebufferResolve := { attachments := [] }
    renderbuffers := []
    drawBuffers := []
    drawBuffersResolve := []
    samples := max desc.samples 1
    depthStencilBinding := 0 }

/-- Modelled from the spec: the deferred completeness check.  After all
attachments are bound the combination must be realizable: every texture-backed
attachment must match the target resolution and every attachment format must
be supported for its role (colors for color and resolve slots, depth-stencil
formats for the depth-stencil slot). -/
def DescriptorComplete (desc : RenderTargetDescriptor) : Bool :=
  desc.attachments.all (fun a =>
    (match a.attachment.texture with
     | some tex => tex.width == desc.width && tex.height == desc.height
     | none => true) &&
    (match a.role with
     | .depthStencil => a.attachment.format.isDepthStencil
     | _ => a.attachment.format.isColor))

/-- Modelled from the spec: GLRenderTarget::CreateFramebufferWithNoAttachments
(body not in the excerpt).  An empty framebuffer whose resolution is taken
directly from the descriptor. -/
def CreateFramebufferWithNoAttachments (desc : RenderTargetDescriptor) :
    GLRenderTarget :=
  InitRenderTarget desc

/-- Modelled from the spec: GLRenderTarget::CreateFramebufferWithAttachments
(body not in the excerpt).  Builds every declared attachment in order, then
performs the deferred completeness check. -/
def CreateFramebufferWithAttachments (desc : RenderTargetDescriptor) :
    Except RenderTargetError GLRenderTarget :=
  match BuildAttachments desc desc.attachments (InitRenderTarget desc) with
  | .error e => Except.error e
  | .ok rt =>
    if DescriptorComplete desc then Except.ok rt
    else Except.error .renderTargetIncomplete

/-- Modelled from the spec: the GLRenderTarget constructor
(BuildRenderTarget of the facade).  Zero declared attachments take the
headless no-attachment path; otherwise the with-attachments path runs. -/
def BuildRenderTarget (desc : RenderTargetDescriptor) :
    Except RenderTargetError GLRenderTarget :=
  if desc.attachments.isEmpty then
    Except.ok (CreateFramebufferWithNoAttachments desc)
  else
    CreateFramebufferWithAttachments desc

/-- Copies the content of the attachment bound at the given binding of the
source framebuffer into the attachment with the same binding of the
destination framebuffer (one resolve blit). -/
def BlitAttachment (src : GLFramebuffer) (dst : GLFramebuffer)
    (binding : Nat) : GLFramebuffer :=
  { attachments := dst.attachments.map (fun att =>
      if att.binding == binding then
        { att with content := src.contentAt binding }
      else att) }

/-- Modelled from the spec: GLRenderTarget::ResolveMultisampled (body not in
the excerpt).  When the sample count exceeds 1, blits every color attachment
from the primary framebuffer into the corresponding slot of the resolve
framebuffer; a no-op (not an error) when the sample count is 1. -/
def ResolveMultisampled (rt : GLRenderTarget) : GLRenderTarget :=
  if 1 < rt.samples then
    let resolved := rt.drawBuffers.foldl
      (fun fb b => BlitAttachment rt.framebuffer fb b) rt.framebufferResolve
    { rt with framebufferResolve := resolved }
  else
    rt

/-- Modelled from the spec:
GLRenderTarget::ResolveMultisampledIntoBackbuffer (body not in the excerpt).
Takes an explicit color-target index; fails with IndexOutOfRange, leaving the
render target and the backbuffer unchanged, when the index is not below the
number of configured color attachments; otherwise blits that one attachment's
primary-framebuffer content to the display target.  Returns the render-target
state, the backbuffer content and the optional error. -/
def ResolveMultisampledIntoBackbuffer (rt : GLRenderTarget) (backbuffer : Nat)
    (colorTarget : Nat) : GLRenderTarget × Nat × Option RenderTargetError :=
  if colorTarget < rt.drawBuffers.length then
    (rt, rt.framebuffer.contentAt (AllocColorAttachmentBinding colorTarget),
      none)
  else
    (rt, backbuffer, some .indexOutOfRange)

/-- Modelled from the spec: GLRenderTarget::SetDrawBuffers (body not in the
excerpt).  Declares the primary draw-buffers list to the driver for the
currently bound FBO; returns the state (unchanged) and the declared values. -/
def SetDrawBuffers (rt : GLRenderTarget) : GLRenderTarget × List Nat :=
  (rt, rt.drawBuffers)

/-- Modelled from the spec: GLRenderTarget::SetName (body not in the excerpt).
Forwards a debug label to the driver; the render-target state is untouched. -/
def SetName (rt : GLRenderTarget) (_name : String) : GLRenderTarget :=
  rt

/-- A released hardware resource of a render target: a framebuffer or a
renderbuffer. -/
inductive GLResource where
  | framebuffer (fb : GLFramebuffer)
  | renderbuffer (rb : GLRenderbuffer)
deriving DecidableEq, Repr

/-- Modelled from the spec: the GLRenderTarget destructor (body not in the
excerpt).  Releases both framebuffers (primary and resolve) and every owned
renderbuffer; returns the released resources. -/
def DestroyGLRenderTarget (rt : GLRenderTarget) : List GLResource :=
  GLResource.framebuffer rt.framebuffer ::
    GLResource.framebuffer rt.framebufferResolve ::
      rt.renderbuffers.map GLResource.renderbuffer

/-- Modelled from the spec: the generic hardware-object container
(HWObjectContainer of ContainerTypes.h, body not in the excerpt).  It owns the
objects of one kind, keyed by stable opaque handles. -/
structure HWObjectContainer (α : Type) where
  nextHandle : Nat := 0
  objects : List (Nat × α) := []

/-- A handle is valid exactly while the container still holds its object. -/
def HWObjectContainer.valid {α : Type} (c : HWObjectContainer α)
    (h : Nat) : Bool :=
  c.objects.any (fun p => p.1 == h)

/-- Modelled from the spec: container creation allocates storage, stores the
object under a fresh handle and returns the handle. -/
def HWObjectContainer.create {α : Type} (c : HWObjectContainer α) (x : α) :
    HWObjectContainer α × Nat :=
  ({ nextHandle := c.nextHandle + 1,
     objects := c.objects ++ [(c.nextHandle, x)] }, c.nextHandle)

/-- Modelled from the spec: container release destroys the object and
invalidates the handle. -/
def HWObjectContainer.release {α : Type} (c : HWObjectContainer α)
    (h : Nat) : HWObjectContainer α :=
  { c with objects := c.objects.filter (fun p => p.1 ≠ h) }

/-- Looks up the object stored under a handle. -/
def HWObjectContainer.get {α : Type} (c : HWObjectContainer α) (h : Nat) :
    Option α :=
  (c.objects.find? (fun p => p.1 == h)).map (fun p => p.2)

/-- Modelled from the spec: the facade operation BuildRenderTarget.  On
success the constructed render target is registered into the render-target
container and its fresh handle is returned; on failure the container is left
as it was and the error is propagated. -/
def BuildRenderTargetInContainer (c : HWObjectContainer GLRenderTarget)
    (desc : RenderTargetDescriptor) :
    HWObjectContainer GLRenderTarget × Except RenderTargetError Nat :=
  match BuildRenderTarget desc with
  | .error e => (c, Except.error e)
  | .ok rt =>
    let created := c.create rt
    (created.1, Except.ok created.2)

/-- Modelled from the spec: the facade operation DestroyRenderTarget.
Delegates to the owning container: the object is destroyed (releasing its
framebuffers and renderbuffers) and the handle is invalidated.  Returns the
container afterwards and the released resources. -/
def DestroyRenderTarget (c : HWObjectContainer GLRenderTarget) (h : Nat) :
    HWObjectContainer GLRenderTarget × List GLResource :=
  match c.get h with
  | some rt => (c.release h, DestroyGLRenderTarget rt)
  | none => (c, [])

/-- The color slots of the descriptor's color-role attachments, in
attachment-declaration order. -/
def ColorSlots (desc : RenderTargetDescriptor) : List Nat :=
  desc.attachments.filterMap (fun a =>
    match a.role with
    | .color s => some s
    | _ => none)

/-- Does the descriptor declare a depth-stencil-role attachment? -/
def HasDepthStencilAttachment (desc : RenderTargetDescriptor) : Bool :=
  desc.attachments.any (fun a => a.role == AttachmentRole.depthStencil)

/-- Every texture-referencing attachment's texture type is legal for its
role. -/
def AttachmentCompatible (a : RTAttachment) : Bool :=
  match a.attachment.texture with
  | some tex => TextureTypeCompatible a.role tex.type
  | none => true

/-- A descriptor on which construction succeeds: every texture type is legal
for its role and the deferred completeness check passes. -/
def ValidDescriptor (desc : RenderTargetDescriptor) : Bool :=
  desc.attachments.all AttachmentCompatible && DescriptorComplete desc

/-- The shape of a framebuffer attachment: everything but its content. -/
def AttachmentShape (att : FramebufferAttachment) :
    Nat × AttachmentStorage × Nat :=
  (att.binding, att.storage, att.samples)

/-- The attachment configuration of a render target established at
construction: attachment shapes of both framebuffers, renderbuffers, both
draw-buffer lists, sample count and depth-stencil binding. -/
def AttachmentConfig (rt : GLRenderTarget) :
    List (Nat × AttachmentStorage × Nat) × List (Nat × AttachmentStorage × Nat)
      × List GLRenderbuffer × List Nat × List Nat × Nat × Nat :=
  (rt.framebuffer.attachments.map AttachmentShape,
   rt.framebufferResolve.attachments.map AttachmentShape,
   rt.renderbuffers, rt.drawBuffers, rt.drawBuffersResolve,
   rt.samples, rt.depthStencilBinding)

/-- The draw-buffer entries contributed by one attachment declaration: a
color-role attachment contributes its allocated binding, other roles none. -/
def RoleDrawBuffer (a : RTAttachment) : List Nat :=
  match a.role with
  | .color s => [AllocColorAttachmentBinding s]
  | _ => []

/-- The primary draw-buffers list contributed by a sequence of attachment
declarations, in declaration order. -/
def DrawBuffersOf : List RTAttachment → List Nat
  | [] => []
  | a :: rest => RoleDrawBuffer a ++ DrawBuffersOf rest

/-- The depth-stencil binding after building one attachment on top of a state
whose binding is b. -/
def DSBindingAfter (a : RTAttachment) (b : Nat) : Nat :=
  match a.role with
  | .depthStencil => AllocDepthStencilAttachmentBinding a.attachment.format
  | _ => b

/-- The constructed render target of a descriptor, or the initial state when
construction fails (used to name concrete constructed states). -/
def BuildOrInit (desc : RenderTargetDescriptor) : GLRenderTarget :=
  match BuildRenderTarget desc with
  | .ok rt => rt
  | .error _ => InitRenderTarget desc

/-- Example 2D color texture, 256 by 256. -/
def texColor256 : GLTexture :=
  { type := .texture2D, format := .rgba8, width := 256, height := 256 }

/-- Example 2D depth-stencil texture, 256 by 256. -/
def texDepth256 : GLTexture :=
  { type := .texture2D, format := .d24s8, width := 256, height := 256 }

/-- Example 1D texture with a depth-stencil format. -/
def texDepth1D : GLTexture :=
  { type := .texture1D, format := .d24s8, width := 256, height := 256 }

/-- Example cube-map texture with a color format. -/
def texCube256 : GLTexture :=
  { type := .textureCube, format := .rgba8, width := 256, height := 256 }

/-- Example 2D color texture, 512 by 512. -/
def texColor512 : GLTexture :=
  { type := .texture2D, format := .rgba8, width := 512, height := 512 }

/-- Example descriptor: two color attachments and one depth-stencil
attachment, single-sampled, 256 by 256. -/
def descTwoColorDS : RenderTargetDescriptor :=
  { width := 256, height := 256, samples := 1,
    attachments :=
      [{ role := .color 0,
         attachment := { texture := some texColor256, format := .rgba8,
                         mipLevel := 0, arrayLayer := 0 } },
       { role := .color 1,
         attachment := { texture := some texCube256, format := .rgba8,
                         mipLevel := 0, arrayLayer := 0 } },
       { role := .depthStencil,
         attachment := { texture := some texDepth256, format := .d24s8,
                         mipLevel := 0, arrayLayer := 0 } }] }

/-- Example descriptor: two color attachments, four samples, no explicit
resolve attachments, 512 by 512. -/
def descMultisample : RenderTargetDescriptor :=
  { width := 512, height := 512, samples := 4,
    attachments :=
      [{ role := .color 0,
         attachment := { texture := some texColor512, format := .rgba8,
                         mipLevel := 0, arrayLayer := 0 } },
       { role := .color 1,
         attachment := { texture := some texColor512, format := .rgba8,
                         mipLevel := 0, arrayLayer := 0 } }] }

/-- Example descriptor: a 1D-texture attachment assigned the depth-stencil
role. -/
def descBadDepth1D : RenderTargetDescriptor :=
  { width := 256, height := 256, samples := 1,
    attachments :=
      [{ role := .depthStencil,
         attachment := { texture := some texDepth1D, format := .d24s8,
                         mipLevel := 0, arrayLayer := 0 } }] }

/-- The depth-stencil attachment declaration of descBadDepth1D. -/
def badDepthAttachment : RTAttachment :=
  { role := .depthStencil,
    attachment := { texture := some texDepth1D, format := .d24s8,
                    mipLevel := 0, arrayLayer := 0 } }

/-- The empty render-target container. -/
def emptyRenderTargets : HWObjectContainer GLRenderTarget :=
  { nextHandle := 0, objects := [] }

theorem BuildAttachment_state (desc : RenderTargetDescriptor)
    (rt : GLRenderTarget) (a : RTAttachment) (rt' : GLRenderTarget)
    (h : BuildAttachment desc rt a = .ok rt') :
    rt'.samples = rt.samples ∧
    rt'.resolution = rt.resolution ∧
    rt'.drawBuffers = rt.drawBuffers ++ RoleDrawBuffer a ∧
    rt'.depthStencilBinding = DSBindingAfter a rt.depthStencilBinding ∧
    (∃ l, rt'.framebuffer.attachments = rt.framebuffer.attachments ++ l) ∧
    (∃ l, rt'.framebufferResolve.attachments =
      rt.framebufferResolve.attachments ++ l) ∧
    (∃ l, rt'.renderbuffers = rt.renderbuffers ++ l) := by
  obtain ⟨role, ad⟩ := a
  cases role <;>
    simp only [BuildAttachment, BuildColorAttachment, BuildResolveAttachment,
      BuildDepthStencilAttachment, RoleDrawBuffer, DSBindingAfter,
      GLFramebuffer.push] at h ⊢ <;>
    (repeat' split at h) <;>
    simp_all <;>
    (try cases h) <;>
    simp

theorem BuildAttachment_error_eq (desc : RenderTargetDescriptor)
    (rt : GLRenderTarget) (a : RTAttachment) (e : RenderTargetError)
    (h : BuildAttachment desc rt a = .error e) :
    e = .invalidAttachmentType := by
  obtain ⟨role, ad⟩ := a
  cases role <;>
    simp only [BuildAttachment, BuildColorAttachment, BuildResolveAttachment,
      BuildDepthStencilAttachment] at h <;>
    (repeat' split at h) <;>
    simp_all

theorem BuildAttachment_ok_of_compatible (desc : RenderTargetDescriptor)
    (rt : GLRenderTarget) (a : RTAttachment)
    (hc : AttachmentCompatible a = true) :
    ∃ rt', BuildAttachment desc rt a = .ok rt' := by
  obtain ⟨role, ad⟩ := a
  cases role <;>
    simp only [AttachmentCompatible] at hc <;>
    simp only [BuildAttachment, BuildColorAttachment, BuildResolveAttachment,
      BuildDepthStencilAttachment] <;>
    (repeat' split) <;>
    simp_all

theorem BuildAttachment_fails_of_incompatible (desc : RenderTargetDescriptor)
    (rt : GLRenderTarget) (a : RTAttachment) (rt' : GLRenderTarget)
    (hc : AttachmentCompatible a = false) :
    BuildAttachment desc rt a ≠ .ok rt' := by
  obtain ⟨role, ad⟩ := a
  cases role <;>
    simp only [AttachmentCompatible] at hc <;>
    simp only [BuildAttachment, BuildColorAttachment, BuildResolveAttachment,
      BuildDepthStencilAttachment] <;>
    (repeat' split) <;>
    simp_all

theorem BuildAttachments_state (desc : RenderTargetDescriptor) :
    ∀ (l : List RTAttachment) (rt rt' : GLRenderTarget),
    BuildAttachments desc l rt = .ok rt' →
    rt'.samples = rt.samples ∧
    rt'.resolution = rt.resolution ∧
    rt'.drawBuffers = rt.drawBuffers ++ DrawBuffersOf l ∧
    (∃ m, rt'.framebuffer.attachments = rt.framebuffer.attachments ++ m) ∧
    (∃ m, rt'.framebufferResolve.attachments =
      rt.framebufferResolve.attachments ++ m) ∧
    (∃ m, rt'.renderbuffers = rt.renderbuffers ++ m) := by
  intro l
  induction l with
  | nil =>
    intro rt rt' h
    simp only [BuildAttachments] at h
    cases h
    simp [DrawBuffersOf]
  | cons a rest ih =>
    intro rt rt' h
    simp only [BuildAttachments] at h
    cases hb : BuildAttachment desc rt a with
    | error e => rw [hb] at h; cases h
    | ok rt₁ =>
      rw [hb] at h
      obtain ⟨hs₁, hr₁, hd₁, hds₁, ⟨m₁, hf₁⟩, ⟨m₂, hg₁⟩, ⟨m₃, hb₁⟩⟩ :=
        BuildAttachment_state desc rt a rt₁ hb
      obtain ⟨hs₂, hr₂, hd₂, ⟨n₁, hf₂⟩, ⟨n₂, hg₂⟩, ⟨n₃, hb₂⟩⟩ :=
        ih rt₁ rt' h
      refine ⟨hs₂.trans hs₁, hr₂.trans hr₁, ?_, ?_, ?_, ?_⟩
      · rw [hd₂, hd₁, DrawBuffersOf, List.append_assoc]
      · exact ⟨m₁ ++ n₁, by rw [hf₂, hf₁, List.append_assoc]⟩
      · exact ⟨m₂ ++ n₂, by rw [hg₂, hg₁, List.append_assoc]⟩
      · exact ⟨m₃ ++ n₃, by rw [hb₂, hb₁, List.append_assoc]⟩

theorem DSBindingAfter_of_ne (a : RTAttachment) (b : Nat)
    (h : a.role ≠ AttachmentRole.depthStencil) : DSBindingAfter a b = b := by
  obtain ⟨role, ad⟩ := a
  cases role <;> simp_all [DSBindingAfter]

theorem BuildAttachments_dsBinding (desc : RenderTargetDescriptor) :
    ∀ (l : List RTAttachment) (rt rt' : GLRenderTarget),
    BuildAttachments desc l rt = .ok rt' →
    (rt'.depthStencilBinding = rt.depthStencilBinding ∧
      ∀ a ∈ l, a.role ≠ AttachmentRole.depthStencil) ∨
    (∃ a ∈ l, a.role = AttachmentRole.depthStencil ∧
      rt'.depthStencilBinding =
        AllocDepthStencilAttachmentBinding a.attachment.format) := by
  intro l
  induction l with
  | nil =>
    intro rt rt' h
    simp only [BuildAttachments] at h
    cases h
    exact Or.inl ⟨rfl, by simp⟩
  | cons a rest ih =>
    intro rt rt' h
    simp only [BuildAttachments] at h
    cases hb : BuildAttachment desc rt a with
    | error e => rw [hb] at h; cases h
    | ok rt₁ =>
      rw [hb] at h
      have hd₁ := (BuildAttachment_state desc rt a rt₁ hb).2.2.2.1
      cases ih rt₁ rt' h with
      | inl hrest =>
        obtain ⟨hds, hnone⟩ := hrest
        by_cases hrole : a.role = AttachmentRole.depthStencil
        · refine Or.inr ⟨a, by simp, hrole, ?_⟩
          rw [hds, hd₁, DSBindingAfter, hrole]
        · refine Or.inl ⟨?_, ?_⟩
          · rw [hds, hd₁, DSBindingAfter_of_ne a _ hrole]
          · intro b hb'
            rcases List.mem_cons.mp hb' with hb' | hb'
            · rw [hb']; exact hrole
            · exact hnone b hb'
      | inr hrest =>
        obtain ⟨b, hbmem, hbrole, hbeq⟩ := hrest
        exact Or.inr ⟨b, List.mem_cons_of_mem a hbmem, hbrole, hbeq⟩

theorem BuildAttachments_error_eq (desc : RenderTargetDescriptor) :
    ∀ (l : List RTAttachment) (rt : GLRenderTarget) (e : RenderTargetError),
    BuildAttachments desc l rt = .error e → e = .invalidAttachmentType := by
  intro l
  induction l with
  | nil => intro rt e h; simp only [BuildAttachments] at h; cases h
  | cons a rest ih =>
    intro rt e h
    simp only [BuildAttachments] at h
    cases hb : BuildAttachment desc rt a with
    | error e' =>
      rw [hb] at h
      cases h
      exact BuildAttachment_error_eq desc rt a e hb
    | ok rt₁ =>
      rw [hb] at h
      exact ih rt₁ e h

theorem BuildAttachments_ok_of_compatible (desc : RenderTargetDescriptor) :
    ∀ (l : List RTAttachment) (rt : GLRenderTarget),
    (∀ a ∈ l, AttachmentCompatible a = true) →
    ∃ rt', BuildAttachments desc l rt = .ok rt' := by
  intro l
  induction l with
  | nil => intro rt _; exact ⟨rt, rfl⟩
  | cons a rest ih =>
    intro rt hc
    obtain ⟨rt₁, hb⟩ := BuildAttachment_ok_of_compatible desc rt a
      (hc a (by simp))
    obtain ⟨rt', hrest⟩ := ih rt₁ (fun b hb' =>
      hc b (List.mem_cons_of_mem a hb'))
    exact ⟨rt', by simp only [BuildAttachments]; rw [hb]; exact hrest⟩

theorem BuildAttachments_not_ok (desc : RenderTargetDescriptor) :
    ∀ (l : List RTAttachment) (rt rt' : GLRenderTarget) (a : RTAttachment),
    a ∈ l → AttachmentCompatible a = false →
    BuildAttachments desc l rt ≠ .ok rt' := by
  intro l
  induction l with
  | nil => intro rt rt' a ha; cases ha
  | cons b rest ih =>
    intro rt rt' a ha hc h
    simp only [BuildAttachments] at h
    cases hb : BuildAttachment desc rt b with
    | error e => rw [hb] at h; cases h
    | ok rt₁ =>
      rw [hb] at h
      rcases List.mem_cons.mp ha with ha | ha
      · exact BuildAttachment_fails_of_incompatible desc rt b rt₁ (ha ▸ hc) hb
      · exact ih rt₁ rt' a ha hc h

theorem BuildRenderTarget_ok_elim (desc : RenderTargetDescriptor)
    (rt : GLRenderTarget) (h : BuildRenderTarget desc = .ok rt) :
    (desc.attachments = [] ∧ rt = InitRenderTarget desc) ∨
    (desc.attachments ≠ [] ∧ DescriptorComplete desc = true ∧
      BuildAttachments desc desc.attachments (InitRenderTarget desc) =
        .ok rt) := by
  unfold BuildRenderTarget at h
  by_cases he : desc.attachments.isEmpty
  · rw [if_pos he] at h
    cases h
    exact Or.inl ⟨List.isEmpty_iff.mp he, rfl⟩
  · rw [if_neg he] at h
    unfold CreateFramebufferWithAttachments at h
    cases hb : BuildAttachments desc desc.attachments (InitRenderTarget desc)
      with
    | error e => rw [hb] at h; cases h
    | ok rt₀ =>
      rw [hb] at h
      dsimp only at h
      by_cases hc : DescriptorComplete desc
      · rw [if_pos hc] at h
        cases h
        exact Or.inr ⟨fun hnil => he (by rw [hnil]; rfl), hc, rfl⟩
      · rw [if_neg hc] at h
        cases h

theorem BuildRenderTarget_samples (desc : RenderTargetDescriptor)
    (rt : GLRenderTarget) (h : BuildRenderTarget desc = .ok rt) :
    rt.samples = max desc.samples 1 := by
  rcases BuildRenderTarget_ok_elim desc rt h with ⟨_, hinit⟩ | ⟨_, _, hb⟩
  · rw [hinit]; rfl
  · exact (BuildAttachments_state desc desc.attachments
      (InitRenderTarget desc) rt hb).1

theorem DrawBuffersOf_eq_map (l : List RTAttachment) :
    DrawBuffersOf l =
      (l.filterMap (fun a =>
        match a.role with
        | .color s => some s
        | _ => none)).map AllocColorAttachmentBinding := by
  induction l with
  | nil => rfl
  | cons a rest ih =>
    obtain ⟨role, ad⟩ := a
    cases role <;>
      simp [DrawBuffersOf, RoleDrawBuffer, List.filterMap_cons, ih]

theorem BuildRenderTarget_drawBuffers (desc : RenderTargetDescriptor)
    (rt : GLRenderTarget) (h : BuildRenderTarget desc = .ok rt) :
    rt.drawBuffers = (ColorSlots desc).map AllocColorAttachmentBinding := by
  rcases BuildRenderTarget_ok_elim desc rt h with ⟨hnil, hinit⟩ | ⟨_, _, hb⟩
  · rw [hinit]
    unfold ColorSlots
    rw [hnil]
    rfl
  · have hd := (BuildAttachments_state desc desc.attachments
      (InitRenderTarget desc) rt hb).2.2.1
    rw [hd, DrawBuffersOf_eq_map]
    rfl

theorem AllocDepthStencilAttachmentBinding_cases (f : Format) :
    AllocDepthStencilAttachmentBinding f = 0 ∨
    AllocDepthStencilAttachmentBinding f = GL_DEPTH_STENCIL_ATTACHMENT ∨
    AllocDepthStencilAttachmentBinding f = GL_DEPTH_ATTACHMENT ∨
    AllocDepthStencilAttachmentBinding f = GL_STENCIL_ATTACHMENT := by
  cases f <;> decide

theorem AllocDepthStencilAttachmentBinding_ne_zero (f : Format)
    (h : f.isDepthStencil = true) :
    AllocDepthStencilAttachmentBinding f ≠ 0 := by
  cases f <;> revert h <;> decide

theorem BuildAttachments_append (desc : RenderTargetDescriptor) :
    ∀ (l₁ l₂ : List RTAttachment) (rt rt₁ : GLRenderTarget),
    BuildAttachments desc l₁ rt = .ok rt₁ →
    BuildAttachments desc (l₁ ++ l₂) rt = BuildAttachments desc l₂ rt₁ := by
  intro l₁
  induction l₁ with
  | nil =>
    intro l₂ rt rt₁ h
    simp only [BuildAttachments] at h
    cases h
    rfl
  | cons a rest ih =>
    intro l₂ rt rt₁ h
    simp only [BuildAttachments] at h ⊢
    cases hb : BuildAttachment desc rt a with
    | error e => rw [hb] at h; cases h
    | ok rt₀ =>
      rw [hb] at h
      dsimp only at h ⊢
      simp only [List.append_eq]
      exact ih l₂ rt₀ rt₁ h

theorem BuildAttachment_substitution (desc : RenderTargetDescriptor)
    (rt : GLRenderTarget) (ad : AttachmentDescriptor) (i : Nat)
    (rt' : GLRenderTarget)
    (h : BuildAttachment desc rt { role := .color i, attachment := ad } =
      .ok rt')
    (hs : 1 < rt.samples) (hr : HasExplicitResolve desc i = false) :
    ({ binding := AllocColorAttachmentBinding i,
       storage := .renderbuffer ad.format, samples := rt.samples,
       content := 0 } : FramebufferAttachment) ∈
        rt'.framebuffer.attachments ∧
    ({ internalFormat := ad.format, width := desc.width, height := desc.height,
       samples := rt.samples } : GLRenderbuffer) ∈ rt'.renderbuffers ∧
    (∃ att ∈ rt'.framebufferResolve.attachments,
      att.binding = AllocColorAttachmentBinding i ∧ att.samples = 1) := by
  simp only [BuildAttachment, BuildColorAttachment] at h
  have hcond : (decide (1 < rt.samples) && !HasExplicitResolve desc i) =
      true := by
    rw [decide_eq_true hs, hr]
    rfl
  rw [if_pos hcond] at h
  cases ht : ad.texture with
  | some tex =>
    rw [ht] at h
    dsimp only at h
    by_cases hcomp : TextureTypeCompatible (.color i) tex.type
    · rw [if_pos hcomp] at h
      cases h
      refine ⟨by simp [GLFramebuffer.push], by simp, ?_⟩
      exact ⟨{ binding := AllocColorAttachmentBinding i,
               storage := .texture tex, samples := 1, content := 0 },
        by simp [GLFramebuffer.push], rfl, rfl⟩
    · rw [if_neg hcomp] at h
      cases h
  | none =>
    rw [ht] at h
    dsimp only at h
    cases h
    refine ⟨by simp [GLFramebuffer.push], by simp, ?_⟩
    exact ⟨{ binding := AllocColorAttachmentBinding i,
             storage := .renderbuffer ad.format, samples := 1, content := 0 },
      by simp [GLFramebuffer.push], rfl, rfl⟩

theorem BuildRenderTarget_dsBinding_cases (desc : RenderTargetDescriptor)
    (rt : GLRenderTarget) (h : BuildRenderTarget desc = .ok rt) :
    rt.depthStencilBinding = 0 ∨
    ∃ f, rt.depthStencilBinding = AllocDepthStencilAttachmentBinding f := by
  rcases BuildRenderTarget_ok_elim desc rt h with ⟨_, hinit⟩ | ⟨_, _, hb⟩
  · rw [hinit]; exact Or.inl rfl
  · rcases BuildAttachments_dsBinding desc desc.attachments
      (InitRenderTarget desc) rt hb with ⟨hds, _⟩ | ⟨a, _, _, heq⟩
    · rw [hds]; exact Or.inl rfl
    · exact Or.inr ⟨a.attachment.format, heq⟩

theorem BlitAttachment_shape (src fb : GLFramebuffer) (b : Nat) :
    (BlitAttachment src fb b).attachments.map AttachmentShape =
      fb.attachments.map AttachmentShape := by
  unfold BlitAttachment
  induction fb.attachments with
  | nil => rfl
  | cons a l ih =>
    by_cases h : a.binding == b <;> simp_all [AttachmentShape]

theorem foldl_blit_shape (src : GLFramebuffer) :
    ∀ (bs : List Nat) (fb : GLFramebuffer),
    ((bs.foldl (fun fb b => BlitAttachment src fb b) fb).attachments).map
        AttachmentShape =
      fb.attachments.map AttachmentShape := by
  intro bs
  induction bs with
  | nil => intro fb; rfl
  | cons b bs ih =>
    intro fb
    rw [List.foldl_cons, ih, BlitAttachment_shape]

theorem find_append_of_none {α : Type} (p : α → Bool) :
    ∀ (l₁ l₂ : List α), l₁.find? p = none →
    (l₁ ++ l₂).find? p = l₂.find? p := by
  intro l₁
  induction l₁ with
  | nil => intro l₂ _; rfl
  | cons a l ih =>
    intro l₂ h
    rw [List.find?_cons] at h
    cases hp : p a with
    | true => rw [hp] at h; cases h
    | false =>
      rw [hp] at h
      rw [List.cons_append, List.find?_cons, hp]
      exact ih l₂ h

theorem valid_release_iff {α : Type} (c : HWObjectContainer α)
    (h h' : Nat) :
    ((c.release h).valid h' = true) ↔ (c.valid h' = true ∧ h' ≠ h) := by
  unfold HWObjectContainer.valid HWObjectContainer.release
  simp only [List.any_eq_true, List.mem_filter, beq_iff_eq,
    decide_eq_true_eq]
  constructor
  · rintro ⟨p, ⟨hp, hne⟩, hph⟩
    exact ⟨⟨p, hp, hph⟩, hph ▸ hne⟩
  · rintro ⟨⟨p, hp, hph⟩, hne⟩
    exact ⟨p, ⟨hp, hph ▸ hne⟩, hph⟩

/-- Claim C1: for every render-target descriptor whose color-role attachments
occupy slots 0..N-1 in declaration order (N at most the capability limit),
successful construction produces a primary draw-buffers list with exactly N
entries, one per color attachment in attachment-declaration order, and the
depth-stencil binding is never an element of that list. -/
theorem spec_C1 (desc : RenderTargetDescriptor) (rt : GLRenderTarget)
    (N : Nat) (hok : BuildRenderTarget desc = .ok rt)
    (hslots : ColorSlots desc = List.range N)
    (hN : N ≤ LLGL_MAX_NUM_COLOR_ATTACHMENTS) :
    rt.drawBuffers = (ColorSlots desc).map AllocColorAttachmentBinding ∧
    rt.drawBuffers.length = N ∧
    rt.depthStencilBinding ∉ rt.drawBuffers := by
  have hdb := BuildRenderTarget_drawBuffers desc rt hok
  have hN8 : N ≤ 8 := hN
  refine ⟨hdb, ?_, ?_⟩
  · rw [hdb, hslots, List.length_map, List.length_range]
  · intro hmem
    rw [hdb, hslots] at hmem
    obtain ⟨i, hi, heq⟩ := List.mem_map.mp hmem
    rw [List.mem_range] at hi
    rcases BuildRenderTarget_dsBinding_cases desc rt hok with h0 | ⟨f, hf⟩
    · rw [h0] at heq
      revert heq
      unfold AllocColorAttachmentBinding GL_COLOR_ATTACHMENT0
      omega
    · rcases AllocDepthStencilAttachmentBinding_cases f with hc | hc | hc | hc
        <;> rw [hf, hc] at heq <;> revert heq <;>
        simp only [AllocColorAttachmentBinding, GL_COLOR_ATTACHMENT0,
          GL_DEPTH_STENCIL_ATTACHMENT, GL_DEPTH_ATTACHMENT,
          GL_STENCIL_ATTACHMENT] <;>
        omega

/-- Claim C3: resolve-to-display with a color-target index at or above the
number of configured color attachments fails with IndexOutOfRange and leaves
the render target's state and the backbuffer unchanged; with an index below
that count it blits that one attachment's primary-framebuffer content to the
display target and reports no error. -/
theorem spec_C3 (rt : GLRenderTarget) (backbuffer colorTarget : Nat) :
    (rt.drawBuffers.length ≤ colorTarget →
      ResolveMultisampledIntoBackbuffer rt backbuffer colorTarget =
        (rt, backbuffer, some .indexOutOfRange)) ∧
    (colorTarget < rt.drawBuffers.length →
      ResolveMultisampledIntoBackbuffer rt backbuffer colorTarget =
        (rt, rt.framebuffer.contentAt (AllocColorAttachmentBinding
          colorTarget), none)) := by
  constructor
  · intro hle
    unfold ResolveMultisampledIntoBackbuffer
    rw [if_neg (not_lt.mpr hle)]
  · intro hlt
    unfold ResolveMultisampledIntoBackbuffer
    rw [if_pos hlt]

/-- Claim C4: for every render target constructed from a descriptor that does
not request multisampling, the full multisample resolve operation is a no-op,
not an error: the render-target state, including all attachment content, is
returned unchanged. -/
theorem spec_C4 (desc : RenderTargetDescriptor) (rt : GLRenderTarget)
    (hok : BuildRenderTarget desc = .ok rt) (hle : desc.samples ≤ 1) :
    ResolveMultisampled rt = rt := by
  have hs : rt.samples = 1 := by
    rw [BuildRenderTarget_samples desc rt hok]
    exact Nat.max_eq_right hle
  unfold ResolveMultisampled
  rw [if_neg (by rw [hs]; exact lt_irrefl 1)]

/-- Claim C8: binding-identifier allocation is a pure, deterministic function
of role and slot: the color binding of slot i is the base color binding plus
i, the resolve binding applies the same arithmetic in the resolve
framebuffer's binding space, the depth-stencil binding is determined solely
by the format (depth-only, stencil-only or combined), and the constructed
primary draw-buffers list consists exactly of those allocated color
bindings. -/
theorem spec_C8 (i : Nat) (f : Format) (desc : RenderTargetDescriptor)
    (rt : GLRenderTarget) :
    AllocColorAttachmentBinding i = GL_COLOR_ATTACHMENT0 + i ∧
    AllocResolveAttachmentBinding i = GL_COLOR_ATTACHMENT0 + i ∧
    (f.isDepthOnly = true →
      AllocDepthStencilAttachmentBinding f = GL_DEPTH_ATTACHMENT) ∧
    (f.isStencilOnly = true →
      AllocDepthStencilAttachmentBinding f = GL_STENCIL_ATTACHMENT) ∧
    (f.isCombined = true →
      AllocDepthStencilAttachmentBinding f = GL_DEPTH_STENCIL_ATTACHMENT) ∧
    (BuildRenderTarget desc = .ok rt →
      rt.drawBuffers = (ColorSlots desc).map AllocColorAttachmentBinding) := by
  refine ⟨rfl, rfl, ?_, ?_, ?_, BuildRenderTarget_drawBuffers desc rt⟩ <;>
    (intro h; cases f <;> revert h <;> decide)

/-- Claim C9: after construction the attachment configuration is externally
immutable: the resolve operations, SetDrawBuffers and SetName preserve the
attachment sets, the draw-buffer lists, the sample count and the
depth-stencil binding, and GetFramebuffer is a read-only accessor of the
primary framebuffer. -/
theorem spec_C9 (rt : GLRenderTarget) (backbuffer colorTarget : Nat)
    (s : String) :
    AttachmentConfig (ResolveMultisampled rt) = AttachmentConfig rt ∧
    (ResolveMultisampledIntoBackbuffer rt backbuffer colorTarget).1 = rt ∧
    (SetDrawBuffers rt).1 = rt ∧
    (SetDrawBuffers rt).2 = rt.drawBuffers ∧
    SetName rt s = rt ∧
    GetFramebuffer rt = rt.framebuffer := by
  refine ⟨?_, ?_, rfl, rfl, rfl, rfl⟩
  · unfold ResolveMultisampled
    by_cases h : 1 < rt.samples
    · rw [if_pos h]
      unfold AttachmentConfig
      simp [foldl_blit_shape]
    · rw [if_neg h]
  · unfold ResolveMultisampledIntoBackbuffer
    by_cases h : colorTarget < rt.drawBuffers.length
    · rw [if_pos h]
    · rw [if_neg h]

/-- Claim C10: the depth-stencil binding of a constructed render target is the
default 0 (none) exactly when the descriptor declared no depth-stencil-role
attachment, and the sample count is the default 1 unless the descriptor
requests multisampling. -/
theorem spec_C10 (desc : RenderTargetDescriptor) (rt : GLRenderTarget)
    (hok : BuildRenderTarget desc = .ok rt) :
    ((rt.depthStencilBinding = 0) ↔
      HasDepthStencilAttachment desc = false) ∧
    (desc.samples ≤ 1 → rt.samples = 1) := by
  constructor
  · rcases BuildRenderTarget_ok_elim desc rt hok with ⟨hnil, hinit⟩ |
      ⟨hne, hcomp, hb⟩
    · rw [hinit]
      constructor
      · intro _
        unfold HasDepthStencilAttachment
        rw [hnil]
        rfl
      · intro _
        rfl
    · rcases BuildAttachments_dsBinding desc desc.attachments
        (InitRenderTarget desc) rt hb with ⟨hds, hnone⟩ | ⟨a, hmem, hrole, heq⟩
      · constructor
        · intro _
          unfold HasDepthStencilAttachment
          rw [List.any_eq_false]
          intro x hx
          simp only [beq_iff_eq]
          exact hnone x hx
        · intro _
          rw [hds]
          rfl
      · have hfmt : a.attachment.format.isDepthStencil = true := by
          unfold DescriptorComplete at hcomp
          have hall := List.all_eq_true.mp hcomp a hmem
          simp only [Bool.and_eq_true] at hall
          have h2 := hall.2
          rw [hrole] at h2
          exact h2
        have hne0 := AllocDepthStencilAttachmentBinding_ne_zero _ hfmt
        constructor
        · intro h0
          rw [heq] at h0
          exact absurd h0 hne0
        · intro hfalse
          exfalso
          have hds : HasDepthStencilAttachment desc = true := by
            unfold HasDepthStencilAttachment
            rw [List.any_eq_true]
            exact ⟨a, hmem, by simp [hrole]⟩
          rw [hds] at hfalse
          cases hfalse
  · intro hle
    rw [BuildRenderTarget_samples desc rt hok]
    exact Nat.max_eq_right hle

/-- Claim C5: an attachment referencing a texture whose declared type is
incompatible with its binding role (in particular a 1D texture assigned the
depth-stencil role) makes construction fail with InvalidAttachmentType, while
compatible combinations (for example a cube-map face attached as a single 2D
color target) never raise that error. -/
theorem spec_C5 (desc : RenderTargetDescriptor) (a : RTAttachment)
    (i : Nat) :
    TextureTypeCompatible AttachmentRole.depthStencil
      TextureType.texture1D = false ∧
    TextureTypeCompatible (AttachmentRole.color i)
      TextureType.textureCube = true ∧
    (a ∈ desc.attachments → AttachmentCompatible a = false →
      BuildRenderTarget desc = .error .invalidAttachmentType) ∧
    (desc.attachments.all AttachmentCompatible = true →
      BuildRenderTarget desc ≠ .error .invalidAttachmentType) := by
  refine ⟨rfl, rfl, ?_, ?_⟩
  · intro hmem hc
    have hne : desc.attachments ≠ [] := by
      intro h
      rw [h] at hmem
      cases hmem
    unfold BuildRenderTarget
    rw [if_neg (fun hEmp => hne (List.isEmpty_iff.mp hEmp))]
    unfold CreateFramebufferWithAttachments
    cases hb : BuildAttachments desc desc.attachments (InitRenderTarget desc)
      with
    | error e =>
      dsimp only
      exact congrArg Except.error
        (BuildAttachments_error_eq desc desc.attachments
          (InitRenderTarget desc) e hb)
    | ok rt₀ =>
      exact absurd hb (BuildAttachments_not_ok desc desc.attachments
        (InitRenderTarget desc) rt₀ a hmem hc)
  · intro hall hcontra
    obtain ⟨rt₀, hb⟩ := BuildAttachments_ok_of_compatible desc
      desc.attachments (InitRenderTarget desc) (List.all_eq_true.mp hall)
    unfold BuildRenderTarget at hcontra
    by_cases he : desc.attachments.isEmpty
    · rw [if_pos he] at hcontra
      cases hcontra
    · rw [if_neg he] at hcontra
      unfold CreateFramebufferWithAttachments at hcontra
      rw [hb] at hcontra
      dsimp only at hcontra
      by_cases hc : DescriptorComplete desc
      · rw [if_pos hc] at hcontra
        cases hcontra
      · rw [if_neg hc] at hcontra
        simp at hcontra

/-- Claim C6: when the facade's BuildRenderTarget fails with any error kind,
no usable render-target handle is registered: the container is exactly as it
was, every handle keeps its previous validity, and the error is the one the
constructor reported. -/
theorem spec_C6 (c : HWObjectContainer GLRenderTarget)
    (desc : RenderTargetDescriptor) (e : RenderTargetError)
    (herr : (BuildRenderTargetInContainer c desc).2 = .error e) :
    (BuildRenderTargetInContainer c desc).1 = c ∧
    (∀ h, (BuildRenderTargetInContainer c desc).1.valid h = c.valid h) ∧
    BuildRenderTarget desc = .error e := by
  unfold BuildRenderTargetInContainer at herr ⊢
  cases hb : BuildRenderTarget desc with
  | error e' =>
    rw [hb] at herr
    dsimp only at herr ⊢
    cases herr
    exact ⟨rfl, fun _ => rfl, rfl⟩
  | ok rt =>
    rw [hb] at herr
    dsimp only at herr
    cases herr

/-- Claim C7: building a render target into its container and immediately
destroying it releases both framebuffers (primary and resolve) and every
owned renderbuffer, the handle is invalid afterwards, and in general a handle
stays valid exactly while its object has not been released. -/
theorem spec_C7 (c : HWObjectContainer GLRenderTarget)
    (desc : RenderTargetDescriptor) (rt : GLRenderTarget)
    (hbuild : BuildRenderTarget desc = .ok rt)
    (hvalid : c.valid c.nextHandle = false) :
    ∃ c₁ h,
      BuildRenderTargetInContainer c desc = (c₁, .ok h) ∧
      (DestroyRenderTarget c₁ h).2 =
        GLResource.framebuffer rt.framebuffer ::
          GLResource.framebuffer rt.framebufferResolve ::
            rt.renderbuffers.map GLResource.renderbuffer ∧
      (DestroyRenderTarget c₁ h).1.valid h = false ∧
      (∀ h', ((DestroyRenderTarget c₁ h).1.valid h' = true ↔
        ((c₁.valid h' = true) ∧ h' ≠ h))) := by
  have hfind : c.objects.find? (fun p => p.1 == c.nextHandle) = none := by
    rw [List.find?_eq_none]
    intro x hx hpx
    have hvt : c.valid c.nextHandle = true := by
      unfold HWObjectContainer.valid
      rw [List.any_eq_true]
      exact ⟨x, hx, hpx⟩
    rw [hvt] at hvalid
    cases hvalid
  have hget : ((c.create rt).1).get c.nextHandle = some rt := by
    unfold HWObjectContainer.get HWObjectContainer.create
    dsimp only
    rw [find_append_of_none _ _ _ hfind]
    simp [List.find?]
  have hdestroy : DestroyRenderTarget (c.create rt).1 c.nextHandle =
      (((c.create rt).1).release c.nextHandle, DestroyGLRenderTarget rt) := by
    unfold DestroyRenderTarget
    rw [hget]
  refine ⟨(c.create rt).1, c.nextHandle, ?_, ?_, ?_, ?_⟩
  · unfold BuildRenderTargetInContainer
    rw [hbuild]
    rfl
  · rw [hdestroy]
    rfl
  · rw [hdestroy]
    dsimp only
    rw [Bool.eq_false_iff]
    intro hvt
    exact ((valid_release_iff _ _ _).mp hvt).2 rfl
  · intro h'
    rw [hdestroy]
    exact valid_release_iff _ _ _

/-- Claim C2: for every valid descriptor with sample count above 1 in which
some color attachment has no explicit resolve attachment for its slot,
construction succeeds, a multisampled renderbuffer is substituted as the
primary storage of that color slot, the renderbuffer is owned by the render
target, and the resolve framebuffer gains a plain (non-multisampled)
attachment in the same slot as the blit destination. -/
theorem spec_C2 (desc : RenderTargetDescriptor) (i : Nat)
    (ad : AttachmentDescriptor) (hvalid : ValidDescriptor desc = true)
    (hs : 1 < desc.samples)
    (hmem : ({ role := .color i, attachment := ad } : RTAttachment) ∈
      desc.attachments)
    (hr : HasExplicitResolve desc i = false) :
    ∃ rt, BuildRenderTarget desc = .ok rt ∧
      rt.samples = desc.samples ∧
      ({ binding := AllocColorAttachmentBinding i,
         storage := .renderbuffer ad.format, samples := desc.samples,
         content := 0 } : FramebufferAttachment) ∈
        rt.framebuffer.attachments ∧
      ({ internalFormat := ad.format, width := desc.width,
         height := desc.height, samples := desc.samples } : GLRenderbuffer) ∈
        rt.renderbuffers ∧
      (∃ att ∈ rt.framebufferResolve.attachments,
        att.binding = AllocResolveAttachmentBinding i ∧
        att.samples = 1) := by
  unfold ValidDescriptor at hvalid
  rw [Bool.and_eq_true] at hvalid
  obtain ⟨hall, hcomp⟩ := hvalid
  obtain ⟨l₁, l₂, hsplit⟩ := List.append_of_mem hmem
  have hsam0 : (InitRenderTarget desc).samples = desc.samples := by
    unfold InitRenderTarget
    exact Nat.max_eq_left (Nat.one_le_iff_ne_zero.mpr (by omega))
  obtain ⟨rt₁, h₁⟩ := BuildAttachments_ok_of_compatible desc l₁
    (InitRenderTarget desc) (fun b hb => List.all_eq_true.mp hall b
      (by rw [hsplit]; exact List.mem_append_left _ hb))
  have hsam₁ : rt₁.samples = desc.samples := by
    rw [(BuildAttachments_state desc l₁ (InitRenderTarget desc) rt₁ h₁).1,
      hsam0]
  obtain ⟨rt₂, h₂⟩ := BuildAttachment_ok_of_compatible desc rt₁
    { role := .color i, attachment := ad }
    (List.all_eq_true.mp hall _ hmem)
  obtain ⟨hfb, hrb, hres⟩ := BuildAttachment_substitution desc rt₁ ad i rt₂
    h₂ (by rw [hsam₁]; exact hs) hr
  obtain ⟨rt₃, h₃⟩ := BuildAttachments_ok_of_compatible desc l₂ rt₂
    (fun b hb => List.all_eq_true.mp hall b
      (by rw [hsplit]
          exact List.mem_append_right _ (List.mem_cons_of_mem _ hb)))
  have hfold : BuildAttachments desc desc.attachments (InitRenderTarget desc)
      = .ok rt₃ := by
    rw [hsplit, BuildAttachments_append desc l₁ _ _ rt₁ h₁]
    simp only [BuildAttachments]
    rw [h₂]
    exact h₃
  have hne : desc.attachments ≠ [] := by
    intro h
    rw [h] at hmem
    cases hmem
  have hbuild : BuildRenderTarget desc = .ok rt₃ := by
    unfold BuildRenderTarget
    rw [if_neg (fun hEmp => hne (List.isEmpty_iff.mp hEmp))]
    unfold CreateFramebufferWithAttachments
    rw [hfold]
    dsimp only
    rw [if_pos hcomp]
  obtain ⟨hsam₃, _, _, ⟨m₁, hm₁⟩, ⟨m₂, hm₂⟩, ⟨m₃, hm₃⟩⟩ :=
    BuildAttachments_state desc l₂ rt₂ rt₃ h₃
  rw [hsam₁] at hfb hrb
  refine ⟨rt₃, hbuild, by rw [hsam₃, (BuildAttachment_state desc rt₁
    { role := .color i, attachment := ad } rt₂ h₂).1, hsam₁], ?_, ?_, ?_⟩
  · rw [hm₁]
    exact List.mem_append_left _ hfb
  · rw [hm₃]
    exact List.mem_append_left _ hrb
  · obtain ⟨att, hatt, hab, has⟩ := hres
    exact ⟨att, by rw [hm₂]; exact List.mem_append_left _ hatt, hab, has⟩

/-- Witness for claim C1 at the two-color descriptor. -/
theorem spec_C1_witness :
    BuildRenderTarget descTwoColorDS = .ok (BuildOrInit descTwoColorDS) ∧
    ColorSlots descTwoColorDS = List.range 2 ∧
    2 ≤ LLGL_MAX_NUM_COLOR_ATTACHMENTS ∧
    ((BuildOrInit descTwoColorDS).drawBuffers =
      (ColorSlots descTwoColorDS).map AllocColorAttachmentBinding ∧
     (BuildOrInit descTwoColorDS).drawBuffers.length = 2 ∧
     (BuildOrInit descTwoColorDS).depthStencilBinding ∉
       (BuildOrInit descTwoColorDS).drawBuffers) :=
  ⟨rfl, by decide, by decide,
    spec_C1 descTwoColorDS (BuildOrInit descTwoColorDS) 2 rfl (by decide)
      (by decide)⟩

/-- Witness for claim C2 at the four-sample two-color descriptor, slot 0. -/
theorem spec_C2_witness :
    ValidDescriptor descMultisample = true ∧
    1 < descMultisample.samples ∧
    ({ role := .color 0,
       attachment := { texture := some texColor512, format := .rgba8,
                       mipLevel := 0, arrayLayer := 0 } } : RTAttachment) ∈
      descMultisample.attachments ∧
    HasExplicitResolve descMultisample 0 = false ∧
    (∃ rt, BuildRenderTarget descMultisample = .ok rt ∧
      rt.samples = descMultisample.samples ∧
      ({ binding := AllocColorAttachmentBinding 0,
         storage := .renderbuffer Format.rgba8,
         samples := descMultisample.samples,
         content := 0 } : FramebufferAttachment) ∈
        rt.framebuffer.attachments ∧
      ({ internalFormat := Format.rgba8, width := descMultisample.width,
         height := descMultisample.height,
         samples := descMultisample.samples } : GLRenderbuffer) ∈
        rt.renderbuffers ∧
      (∃ att ∈ rt.framebufferResolve.attachments,
        att.binding = AllocResolveAttachmentBinding 0 ∧
        att.samples = 1)) :=
  ⟨by decide, by decide, by decide, by decide,
    spec_C2 descMultisample 0
      { texture := some texColor512, format := .rgba8, mipLevel := 0,
        arrayLayer := 0 }
      (by decide) (by decide) (by decide) (by decide)⟩

/-- Witness for claim C3 at the constructed two-color render target, with an
out-of-range index 5 and an in-range index 0. -/
theorem spec_C3_witness :
    ((BuildOrInit descTwoColorDS).drawBuffers.length ≤ 5 ∧
     ResolveMultisampledIntoBackbuffer (BuildOrInit descTwoColorDS) 7 5 =
       (BuildOrInit descTwoColorDS, 7, some .indexOutOfRange)) ∧
    (0 < (BuildOrInit descTwoColorDS).drawBuffers.length ∧
     ResolveMultisampledIntoBackbuffer (BuildOrInit descTwoColorDS) 7 0 =
       (BuildOrInit descTwoColorDS,
        (BuildOrInit descTwoColorDS).framebuffer.contentAt
          (AllocColorAttachmentBinding 0), none)) :=
  ⟨⟨by decide,
    (spec_C3 (BuildOrInit descTwoColorDS) 7 5).1 (by decide)⟩,
   ⟨by decide,
    (spec_C3 (BuildOrInit descTwoColorDS) 7 0).2 (by decide)⟩⟩

/-- Witness for claim C4 at the single-sampled two-color render target. -/
theorem spec_C4_witness :
    BuildRenderTarget descTwoColorDS = .ok (BuildOrInit descTwoColorDS) ∧
    descTwoColorDS.samples ≤ 1 ∧
    ResolveMultisampled (BuildOrInit descTwoColorDS) =
      BuildOrInit descTwoColorDS :=
  ⟨rfl, by decide,
    spec_C4 descTwoColorDS (BuildOrInit descTwoColorDS) rfl (by decide)⟩

/-- Witness for claim C5: the 1D depth-stencil descriptor fails with
InvalidAttachmentType, while the all-compatible two-color descriptor (with a
cube-map face as a color target) does not raise that error. -/
theorem spec_C5_witness :
    (badDepthAttachment ∈ descBadDepth1D.attachments ∧
     AttachmentCompatible badDepthAttachment = false ∧
     BuildRenderTarget descBadDepth1D = .error .invalidAttachmentType) ∧
    (descTwoColorDS.attachments.all AttachmentCompatible = true ∧
     BuildRenderTarget descTwoColorDS ≠ .error .invalidAttachmentType) :=
  ⟨⟨by decide, by decide,
    (spec_C5 descBadDepth1D badDepthAttachment 0).2.2.1 (by decide)
      (by decide)⟩,
   ⟨by decide,
    (spec_C5 descTwoColorDS badDepthAttachment 0).2.2.2 (by decide)⟩⟩

/-- Witness for claim C6 at the empty container and the failing 1D
depth-stencil descriptor. -/
theorem spec_C6_witness :
    (BuildRenderTargetInContainer emptyRenderTargets descBadDepth1D).2 =
      .error .invalidAttachmentType ∧
    ((BuildRenderTargetInContainer emptyRenderTargets descBadDepth1D).1 =
      emptyRenderTargets ∧
     (∀ h, (BuildRenderTargetInContainer emptyRenderTargets
        descBadDepth1D).1.valid h = emptyRenderTargets.valid h) ∧
     BuildRenderTarget descBadDepth1D = .error .invalidAttachmentType) :=
  ⟨rfl, spec_C6 emptyRenderTargets descBadDepth1D .invalidAttachmentType rfl⟩

/-- Witness for claim C7 at the empty container and the two-color
descriptor. -/
theorem spec_C7_witness :
    BuildRenderTarget descTwoColorDS = .ok (BuildOrInit descTwoColorDS) ∧
    emptyRenderTargets.valid emptyRenderTargets.nextHandle = false ∧
    (∃ c₁ h,
      BuildRenderTargetInContainer emptyRenderTargets descTwoColorDS =
        (c₁, .ok h) ∧
      (DestroyRenderTarget c₁ h).2 =
        GLResource.framebuffer (BuildOrInit descTwoColorDS).framebuffer ::
          GLResource.framebuffer
            (BuildOrInit descTwoColorDS).framebufferResolve ::
            (BuildOrInit descTwoColorDS).renderbuffers.map
              GLResource.renderbuffer ∧
      (DestroyRenderTarget c₁ h).1.valid h = false ∧
      (∀ h', ((DestroyRenderTarget c₁ h).1.valid h' = true ↔
        ((c₁.valid h' = true) ∧ h' ≠ h)))) :=
  ⟨rfl, rfl,
    spec_C7 emptyRenderTargets descTwoColorDS (BuildOrInit descTwoColorDS)
      rfl rfl⟩

/-- Witness for claim C8 at slot 3 and the depth-only, stencil-only and
combined formats, plus the constructed two-color render target. -/
theorem spec_C8_witness :
    (Format.d16.isDepthOnly = true ∧
     AllocDepthStencilAttachmentBinding .d16 = GL_DEPTH_ATTACHMENT) ∧
    (Format.s8.isStencilOnly = true ∧
     AllocDepthStencilAttachmentBinding .s8 = GL_STENCIL_ATTACHMENT) ∧
    (Format.d24s8.isCombined = true ∧
     AllocDepthStencilAttachmentBinding .d24s8 =
       GL_DEPTH_STENCIL_ATTACHMENT) ∧
    (BuildRenderTarget descTwoColorDS = .ok (BuildOrInit descTwoColorDS) ∧
     (BuildOrInit descTwoColorDS).drawBuffers =
       (ColorSlots descTwoColorDS).map AllocColorAttachmentBinding) ∧
    AllocColorAttachmentBinding 3 = GL_COLOR_ATTACHMENT0 + 3 ∧
    AllocResolveAttachmentBinding 3 = GL_COLOR_ATTACHMENT0 + 3 :=
  ⟨⟨by decide,
    (spec_C8 3 .d16 descTwoColorDS (BuildOrInit descTwoColorDS)).2.2.1
      (by decide)⟩,
   ⟨by decide,
    (spec_C8 3 .s8 descTwoColorDS (BuildOrInit descTwoColorDS)).2.2.2.1
      (by decide)⟩,
   ⟨by decide,
    (spec_C8 3 .d24s8 descTwoColorDS (BuildOrInit descTwoColorDS)).2.2.2.2.1
      (by decide)⟩,
   ⟨rfl,
    (spec_C8 3 .d16 descTwoColorDS (BuildOrInit descTwoColorDS)).2.2.2.2.2
      rfl⟩,
   (spec_C8 3 .d16 descTwoColorDS (BuildOrInit descTwoColorDS)).1,
   (spec_C8 3 .d16 descTwoColorDS (BuildOrInit descTwoColorDS)).2.1⟩

/-- Witness for claim C10 at the two-color descriptor with a depth-stencil
attachment. -/
theorem spec_C10_witness :
    BuildRenderTarget descTwoColorDS = .ok (BuildOrInit descTwoColorDS) ∧
    ((((BuildOrInit descTwoColorDS).depthStencilBinding = 0) ↔
      HasDepthStencilAttachment descTwoColorDS = false) ∧
     (descTwoColorDS.samples ≤ 1 →
      (BuildOrInit descTwoColorDS).samples = 1)) :=
  ⟨rfl, spec_C10 descTwoColorDS (BuildOrInit descTwoColorDS) rfl⟩

end LLGL
